import Mathlib

set_option maxRecDepth 80000

/-!
Shallow embedding of the voxellaneous rendering core
(src/voxellaneous-core/src/lib.rs together with constants.rs): the
renderer state and the entry points resize, render, get_gpu_info and
upload_scene. GPU handles are modelled by the descriptors and payloads
that determine them; the wgpu device is modelled as an oracle that may
fail per-object resource creation, since wgpu reports such failures out
of band (validation error or panic) and either way control leaves the
function at that point.
-/

namespace Voxellaneous

/-- A 32-bit IEEE-754 float value carried as its bit pattern; the modelled
code paths never compute with float values, they only move them. -/
structure F32 where
  bits : Nat
deriving DecidableEq, Repr

/-- The bit pattern of 0.5f32, used by the unwrap_or default light
direction in render and the initial lighting uniforms. -/
def f32Half : F32 := ⟨1056964608⟩

/-- The bit pattern of 0.1f32, the initial ambient value. -/
def f32Tenth : F32 := ⟨1036831949⟩

/-- The default light direction [0.5, 0.5, 0.5] substituted by
light_dir.try_into().unwrap_or in render (lib.rs line 649). -/
def defaultLightDir : List F32 := [f32Half, f32Half, f32Half]

/-- The wgpu::TextureFormat variants that appear in lib.rs. surfaceFmt
stands for the first supported surface format picked at initialization. -/
inductive TextureFormat where
  | rgba8Unorm
  | r16Uint
  | depth24PlusStencil8
  | r8Uint
  | surfaceFmt
deriving DecidableEq, Repr

/-- A 2-D texture view as produced by create_render_texture_view or
create_depth_texture: its size, format and label determine it. -/
structure RenderTarget where
  width : Nat
  height : Nat
  format : TextureFormat
  label : String
deriving DecidableEq, Repr

/-- Embeds create_render_texture_view (lib.rs lines 52-75): a 2-D texture
of the given size and format, usable as render attachment and binding. -/
def create_render_texture_view (width height : Nat) (format : TextureFormat)
    (label : String) : RenderTarget :=
  { width := width, height := height, format := format, label := label }

/-- The wgpu::SurfaceConfiguration fields that resize touches. -/
structure SurfaceConfiguration where
  width : Nat
  height : Nat
deriving DecidableEq, Repr

/-- Embeds create_depth_texture (lib.rs lines 77-99): a
Depth24PlusStencil8 texture sized to the surface configuration. -/
def create_depth_texture (config : SurfaceConfiguration) : RenderTarget :=
  { width := config.width, height := config.height,
    format := TextureFormat.depth24PlusStencil8, label := "Depth Texture" }

/-- Modelled from the spec: the palette element type is declared in
scene.rs, which is not under src/; the spec's scene schema gives an RGBA
color with four 8-bit channels. -/
structure Color where
  r : Fin 256
  g : Fin 256
  b : Fin 256
  a : Fin 256
deriving DecidableEq, Repr

/-- Modelled from the spec: utils::pack_rgba is declared in utils.rs,
which is not under src/; the spec says the palette is packed into 32-bit
packed RGBA words, so the four 8-bit channels are packed into one 32-bit
word. -/
def pack_rgba (c : Color) : Nat :=
  c.r.val + c.g.val * 256 + c.b.val * 65536 + c.a.val * 16777216

/-- Modelled from the spec: VoxelObject is declared in scene.rs, which is
not under src/; the fields mirror the spec's scene schema and the uses in
upload_scene (dims destructured as [nx, ny, nz], voxels as bytes, the two
matrices as 16 floats each). -/
structure VoxelObject where
  id : String
  dims : Nat × Nat × Nat
  voxels : List (Fin 256)
  model_matrix : List F32
  inv_model_matrix : List F32
deriving DecidableEq, Repr

/-- Modelled from the spec: Scene is declared in scene.rs, which is not
under src/; a palette plus an ordered object list, as in the spec's scene
schema and upload_scene's uses. -/
structure Scene where
  palette : List Color
  objects : List VoxelObject
deriving DecidableEq, Repr

/-- PerFrameUniforms (lib.rs lines 24-30). -/
structure PerFrameUniforms where
  vp_matrix : List F32
  camera_position : List F32
  padding : F32
deriving DecidableEq, Repr

/-- LightingUniforms (lib.rs lines 45-50). -/
structure LightingUniforms where
  light_dir : List F32
  ambient : F32
deriving DecidableEq, Repr

/-- PerDrawUniforms (lib.rs lines 38-43). -/
structure PerDrawUniforms where
  model_matrix : List F32
  inverse_model_matrix : List F32
deriving DecidableEq, Repr

/-- The descriptor upload_scene passes to create_texture for one object:
a 3-D R8Uint texture sized to the voxel grid (lib.rs lines 853-866). -/
structure TextureDesc3D where
  label : String
  width : Nat
  height : Nat
  depth : Nat
  format : TextureFormat
deriving DecidableEq, Repr

/-- The 3-D texture descriptor built for an object in upload_scene. -/
def textureDescFor (obj : VoxelObject) : TextureDesc3D :=
  { label := "object_" ++ obj.id
    width := obj.dims.1
    height := obj.dims.2.1
    depth := obj.dims.2.2
    format := TextureFormat.r8Uint }

/-- DrawCallData (lib.rs lines 101-106), with each GPU handle modelled by
what determines it: the texture descriptor, the texel upload recorded by
write_texture with its layout, and the per-draw uniform contents that the
bind group references. -/
structure DrawCallData where
  texture : TextureDesc3D
  uploadedVoxels : List (Fin 256)
  bytes_per_row : Nat
  rows_per_image : Nat
  uniforms : PerDrawUniforms
deriving DecidableEq, Repr

/-- The draw-call record upload_scene builds from one object when every
per-object resource creation succeeds (lib.rs lines 850-924). -/
def mkDrawCall (obj : VoxelObject) : DrawCallData :=
  { texture := textureDescFor obj
    uploadedVoxels := obj.voxels
    bytes_per_row := obj.dims.1
    rows_per_image := obj.dims.2.1
    uniforms := { model_matrix := obj.model_matrix
                  inverse_model_matrix := obj.inv_model_matrix } }

/-- The wgpu::AdapterInfo fields that get_gpu_info reads; note that the
adapter carries distinct driver and driver_info strings. -/
structure AdapterInfo where
  name : String
  vendor : Nat
  device : Nat
  device_type : String
  driver : String
  driver_info : String
  backend : String
deriving DecidableEq, Repr

/-- SerializableAdapterInfo (lib.rs lines 13-22). -/
structure SerializableAdapterInfo where
  name : String
  vendor : Nat
  device : Nat
  device_type : String
  driver : String
  driver_info : String
  backend : String
deriving DecidableEq, Repr

/-- The Renderer fields (lib.rs lines 108-136) that the modelled entry
points read or write; pipelines, layouts and constant buffers are fixed at
initialization and carried implicitly. -/
structure RendererState where
  adapter_info : AdapterInfo
  surface_config : SurfaceConfiguration
  depth_texture_view : RenderTarget
  gbuffer_albedo : RenderTarget
  gbuffer_normal : RenderTarget
  gbuffer_linear_z : RenderTarget
  static_uniform : List Nat
  per_frame_uniform : PerFrameUniforms
  lighting_uniform : LightingUniforms
  draw_call_array : List DrawCallData
deriving DecidableEq, Repr

/-- The observable way a Rust entry point finishes: a normal Ok return, an
Err return, or a panic (a failed expect or unwrap, or an out-of-bounds
index). -/
inductive RustOutcome where
  | ok
  | err (e : String)
  | panicked (msg : String)
deriving DecidableEq, Repr

/-- Whether the outcome is an Err return. -/
def RustOutcome.isErr : RustOutcome → Bool
  | .err _ => true
  | _ => false

/-- Embeds Renderer::resize (lib.rs lines 509-541): reconfigure the
surface to the new size, recreate the depth texture and the three
G-buffer targets; the function always returns Ok. -/
def resize (st : RendererState) (width height : Nat) :
    RustOutcome × RendererState :=
  let config : SurfaceConfiguration := { width := width, height := height }
  (RustOutcome.ok,
   { st with
      surface_config := config
      depth_texture_view := create_depth_texture config
      gbuffer_albedo := create_render_texture_view width height
        TextureFormat.rgba8Unorm "GBuffer Albedo"
      gbuffer_normal := create_render_texture_view width height
        TextureFormat.rgba8Unorm "GBuffer Normal"
      gbuffer_linear_z := create_render_texture_view width height
        TextureFormat.r16Uint "GBuffer LinearZ" })

/-- Embeds Renderer::get_gpu_info (lib.rs lines 820-831): both the driver
and driver_info fields of the serialized record are copies of the
adapter's driver_info string. -/
def get_gpu_info (st : RendererState) : SerializableAdapterInfo :=
  { name := st.adapter_info.name
    vendor := st.adapter_info.vendor
    device := st.adapter_info.device
    device_type := st.adapter_info.device_type
    driver := st.adapter_info.driver_info
    driver_info := st.adapter_info.driver_info
    backend := st.adapter_info.backend }

/-- The composition pipelines of the present pass. -/
inductive CompPipeline where
  | quadFloat
  | quadUint
  | lighting
deriving DecidableEq, Repr

/-- The texture views a composition pipeline can sample. -/
inductive BoundTexture where
  | albedo
  | normal
  | linearZ
  | depthView
deriving DecidableEq, Repr

/-- What the present pass binds: the pipeline, the sampled texture views
in binding order, and whether the lighting uniform buffer is bound. -/
structure PresentSelection where
  pipeline : CompPipeline
  textures : List BoundTexture
  bindsLightingUniform : Bool
deriving DecidableEq, Repr

/-- Embeds the composition-pass branch of Renderer::render (lib.rs lines
739-811): present_target 4 takes the lighting pipeline over the albedo
and normal views plus the lighting uniform; 0-3 pick a debug pipeline and
one view through the match; every other value lands in the wildcard arm,
the float debug pipeline on the albedo view. -/
def selectPresent (present_target : Nat) : PresentSelection :=
  if present_target == 4 then
    { pipeline := CompPipeline.lighting
      textures := [BoundTexture.albedo, BoundTexture.normal]
      bindsLightingUniform := true }
  else
    match present_target with
    | 0 => { pipeline := CompPipeline.quadFloat
             textures := [BoundTexture.albedo], bindsLightingUniform := false }
    | 1 => { pipeline := CompPipeline.quadFloat
             textures := [BoundTexture.normal], bindsLightingUniform := false }
    | 2 => { pipeline := CompPipeline.quadUint
             textures := [BoundTexture.linearZ], bindsLightingUniform := false }
    | 3 => { pipeline := CompPipeline.quadFloat
             textures := [BoundTexture.depthView], bindsLightingUniform := false }
    | _ => { pipeline := CompPipeline.quadFloat
             textures := [BoundTexture.albedo], bindsLightingUniform := false }

/-- What one render call did: its outcome, how many queue submissions it
made, whether the frame was presented, which composition selection was
recorded (none when the call exited before the present pass), and the
renderer state afterwards. -/
structure RenderResult where
  outcome : RustOutcome
  submits : Nat
  presented : Bool
  selection : Option PresentSelection
  state : RendererState
deriving DecidableEq, Repr

/-- Embeds Renderer::render (lib.rs lines 624-818). vp_matrix must convert
to a 16-element array (expect panics otherwise) and view_position to a
3-element array (unwrap panics otherwise), both before any buffer write;
a light_dir of the wrong length is silently replaced by the default
[0.5, 0.5, 0.5] through unwrap_or. The surface-acquisition result is an
input; its error is the only Err return, taken after the uniform writes
but before any submit or present. On success the command sequence is
submitted as one batch and the frame presented. -/
def render (st : RendererState) (vp_matrix : List F32)
    (view_position : List F32) (present_target : Nat)
    (light_dir : List F32) (ambient : F32)
    (acquire : Except String Unit) : RenderResult :=
  if vp_matrix.length ≠ 16 then
    { outcome := RustOutcome.panicked "mvp_matrix has incorrect length"
      submits := 0, presented := false, selection := none, state := st }
  else if view_position.length ≠ 3 then
    { outcome := RustOutcome.panicked "called Result::unwrap on an Err value"
      submits := 0, presented := false, selection := none, state := st }
  else
    let st1 := { st with per_frame_uniform :=
      { vp_matrix := vp_matrix, camera_position := view_position
        padding := F32.mk 0 } }
    let lightArr := if light_dir.length = 3 then light_dir else defaultLightDir
    let st2 := { st1 with lighting_uniform :=
      { light_dir := lightArr, ambient := ambient } }
    match acquire with
    | Except.error e =>
      { outcome := RustOutcome.err e, submits := 0, presented := false
        selection := none, state := st2 }
    | Except.ok _ =>
      { outcome := RustOutcome.ok, submits := 1, presented := true
        selection := some (selectPresent present_target), state := st2 }

/-- An array-indexed write, Rust color_palette[i] = v: out of bounds is a
panic, modelled as none. -/
def writeAt (arr : List Nat) (i : Nat) (v : Nat) : Option (List Nat) :=
  if i < arr.length then some (arr.set i v) else none

/-- The palette loop of upload_scene (lib.rs lines 838-840): write
pack_rgba of each palette entry at its index. -/
def packPaletteLoop (arr : List Nat) (palette : List Color) (i : Nat) :
    Option (List Nat) :=
  match palette with
  | [] => some arr
  | c :: rest =>
    match writeAt arr i (pack_rgba c) with
    | none => none
    | some arr2 => packPaletteLoop arr2 rest (i + 1)

/-- The packed 256-word palette array of upload_scene (lib.rs lines
837-840), starting from the zero-initialized array. -/
def packPalette (palette : List Color) : Option (List Nat) :=
  packPaletteLoop (List.replicate 256 0) palette 0

/-- The fallible per-object resource creations of upload_scene, as an
oracle: for each descriptor the device decides whether creating the 3-D
texture, the sampler, the per-draw uniform buffer or the bind group
fails. -/
structure Device where
  texFail : TextureDesc3D → Option String
  samplerFail : Option String
  bufFail : PerDrawUniforms → Option String
  bindFail : Option String

/-- A device on which every resource creation succeeds. -/
def okDevice : Device :=
  { texFail := fun _ => none, samplerFail := none
    bufFail := fun _ => none, bindFail := none }

/-- One iteration of the object loop of upload_scene (lib.rs lines
850-924): create the 3-D texture, enqueue the voxel upload with row
stride nx and image stride ny, create the view, the sampler, the
per-draw uniform buffer and the bind group; any creation failure leaves
the loop before the record is pushed. -/
def buildDrawCall (dev : Device) (obj : VoxelObject) :
    Except String DrawCallData :=
  match dev.texFail (textureDescFor obj) with
  | some e => Except.error e
  | none =>
    match dev.samplerFail with
    | some e => Except.error e
    | none =>
      match dev.bufFail { model_matrix := obj.model_matrix
                          inverse_model_matrix := obj.inv_model_matrix } with
      | some e => Except.error e
      | none =>
        match dev.bindFail with
        | some e => Except.error e
        | none => Except.ok (mkDrawCall obj)

/-- The object loop of upload_scene: build one draw-call record per object
in input order, stopping at the first creation failure. -/
def uploadObjects (dev : Device) :
    List VoxelObject → Except String (List DrawCallData)
  | [] => Except.ok []
  | obj :: rest =>
    match buildDrawCall dev obj with
    | Except.error e => Except.error e
    | Except.ok dc =>
      match uploadObjects dev rest with
      | Except.error e => Except.error e
      | Except.ok dcs => Except.ok (dc :: dcs)

/-- Embeds Renderer::upload_scene (lib.rs lines 833-931): pack the palette
into the fixed 256-word array (an over-long palette hits an out-of-bounds
write there, before any queue write), write the static uniform buffer,
build the new draw-call list off to the side, and only after every object
succeeded assign it over the old collection in one statement. -/
def upload_scene (dev : Device) (st : RendererState) (scene : Scene) :
    RustOutcome × RendererState :=
  match packPalette scene.palette with
  | none => (RustOutcome.panicked "index out of bounds", st)
  | some packed =>
    let st1 := { st with static_uniform := packed }
    match uploadObjects dev scene.objects with
    | Except.error e => (RustOutcome.err e, st1)
    | Except.ok dcs => (RustOutcome.ok, { st1 with draw_call_array := dcs })

/-- A sample adapter record for concrete witnesses; driver and driver_info
are deliberately different strings on the adapter side. -/
def sampleAdapterInfo : AdapterInfo :=
  { name := "SampleGPU", vendor := 1, device := 2
    device_type := "DiscreteGpu", driver := "adapter driver name"
    driver_info := "adapter driver info", backend := "BrowserWebGpu" }

/-- The renderer state as constructed by Renderer::new (lib.rs lines
140-507) for a canvas of the given size: empty draw-call collection,
zeroed static and per-frame uniform buffers, initial lighting uniforms
[0.5, 0.5, 0.5] with ambient 0.1, and targets sized to the canvas. -/
def mkRenderer (w h : Nat) (info : AdapterInfo) : RendererState :=
  { adapter_info := info
    surface_config := { width := w, height := h }
    depth_texture_view := create_depth_texture { width := w, height := h }
    gbuffer_albedo := create_render_texture_view w h
      TextureFormat.rgba8Unorm "GBuffer Albedo"
    gbuffer_normal := create_render_texture_view w h
      TextureFormat.rgba8Unorm "GBuffer Normal"
    gbuffer_linear_z := create_render_texture_view w h
      TextureFormat.r16Uint "GBuffer LinearZ"
    static_uniform := List.replicate 256 0
    per_frame_uniform := { vp_matrix := List.replicate 16 (F32.mk 0)
                           camera_position := List.replicate 3 (F32.mk 0)
                           padding := F32.mk 0 }
    lighting_uniform := { light_dir := defaultLightDir, ambient := f32Tenth }
    draw_call_array := [] }

/-- A concrete renderer state for witnesses. -/
def st0 : RendererState := mkRenderer 800 600 sampleAdapterInfo

/-- A well-formed 16-float view-projection input. -/
def vp16 : List F32 := List.replicate 16 (F32.mk 0)

/-- A well-formed 3-float camera-position input. -/
def pos3 : List F32 := List.replicate 3 (F32.mk 0)

/-- A malformed 2-float light-direction input. -/
def light2 : List F32 := [F32.mk 0, F32.mk 0]

/-- An opaque red palette entry. -/
def redColor : Color := { r := 255, g := 0, b := 0, a := 255 }

/-- A small 2x2x2 voxel object. -/
def sampleObject : VoxelObject :=
  { id := "cube", dims := (2, 2, 2), voxels := List.replicate 8 (0 : Fin 256)
    model_matrix := List.replicate 16 (F32.mk 0)
    inv_model_matrix := List.replicate 16 (F32.mk 0) }

/-- A second small voxel object. -/
def sampleObject2 : VoxelObject :=
  { id := "dot", dims := (1, 1, 1), voxels := [(0 : Fin 256)]
    model_matrix := List.replicate 16 (F32.mk 0)
    inv_model_matrix := List.replicate 16 (F32.mk 0) }

/-- A one-object scene. -/
def sceneOne : Scene := { palette := [redColor], objects := [sampleObject] }

/-- A two-object scene. -/
def sceneTwo : Scene :=
  { palette := [redColor], objects := [sampleObject, sampleObject2] }

/-- A palette one entry longer than the 256-slot packed array. -/
def bigPalette : List Color := List.replicate 257 redColor

/-- A scene whose palette exceeds 256 entries. -/
def sceneBig : Scene := { palette := bigPalette, objects := [] }

/-- A device on which every 3-D texture creation fails. -/
def failTexDevice : Device :=
  { texFail := fun _ => some "texture creation failed", samplerFail := none
    bufFail := fun _ => none, bindFail := none }

/-- The selection the float debug pipeline makes over the albedo view,
which is both mode 0 and the wildcard fallback. -/
def albedoDebugSelection : PresentSelection :=
  { pipeline := CompPipeline.quadFloat, textures := [BoundTexture.albedo]
    bindsLightingUniform := false }

/-- Helper: every present_target above 4 lands in the wildcard arm of the
match and selects the float debug pipeline over the albedo view. -/
theorem selectPresent_fallback (n : Nat) (h : 4 < n) :
    selectPresent n = albedoDebugSelection := by
  match n, h with
  | (m + 5), _ => rfl

/-- Helper: render with well-formed matrix and position inputs records the
selection computed by selectPresent when acquisition succeeds. -/
theorem render_selection (st : RendererState) (vp pos ld : List F32)
    (n : Nat) (amb : F32) (hvp : vp.length = 16) (hpos : pos.length = 3) :
    (render st vp pos n ld amb (Except.ok ())).selection =
      some (selectPresent n) ∧
    (render st vp pos n ld amb (Except.ok ())).outcome = RustOutcome.ok := by
  simp [render, hvp, hpos]

/-- Claim C7: resize idempotence — for every width W and height H, calling
resize(W, H) twice in a row leaves the renderer with G-buffer targets
(albedo, normal, linear-depth) and a depth target whose dimensions and
texture formats are identical to those after a single resize(W, H). -/
theorem resize_idempotent (st : RendererState) (w h : Nat) :
    (resize (resize st w h).2 w h).2.gbuffer_albedo =
      (resize st w h).2.gbuffer_albedo ∧
    (resize (resize st w h).2 w h).2.gbuffer_normal =
      (resize st w h).2.gbuffer_normal ∧
    (resize (resize st w h).2 w h).2.gbuffer_linear_z =
      (resize st w h).2.gbuffer_linear_z ∧
    (resize (resize st w h).2 w h).2.depth_texture_view =
      (resize st w h).2.depth_texture_view :=
  ⟨rfl, rfl, rfl, rfl⟩

/-- Claim C9: resize never returns its error branch — for every width and
height, resize returns Ok; the Error alternative of its signature is
unreachable. -/
theorem resize_never_errs (st : RendererState) (w h : Nat) :
    (resize st w h).1 = RustOutcome.ok :=
  rfl

/-- Claim C10: in the record returned by get_gpu_info, the driver field
always equals the driver_info field — both are copied from the adapter's
driver_info string, so the adapter's driver name is never exposed. -/
theorem gpu_info_driver_eq_driver_info (st : RendererState) :
    (get_gpu_info st).driver = (get_gpu_info st).driver_info ∧
    (get_gpu_info st).driver = st.adapter_info.driver_info :=
  ⟨rfl, rfl⟩

/-- Claim C2: present-mode coverage — for each of the 5 named modes,
render selects the documented pipeline/texture pair (0 albedo and
1 normal on the float debug pipeline, 2 linear-depth on the integer debug
pipeline, 3 the depth-stencil view on the float debug pipeline, 4 the
lighting pipeline over albedo and normal with the lighting uniform), and
every unrecognized mode value falls back to the albedo debug view without
an error. -/
theorem present_mode_coverage (st : RendererState) (vp pos ld : List F32)
    (amb : F32) (hvp : vp.length = 16) (hpos : pos.length = 3) :
    (render st vp pos 0 ld amb (Except.ok ())).selection =
      some albedoDebugSelection ∧
    (render st vp pos 1 ld amb (Except.ok ())).selection =
      some { pipeline := CompPipeline.quadFloat
             textures := [BoundTexture.normal], bindsLightingUniform := false } ∧
    (render st vp pos 2 ld amb (Except.ok ())).selection =
      some { pipeline := CompPipeline.quadUint
             textures := [BoundTexture.linearZ], bindsLightingUniform := false } ∧
    (render st vp pos 3 ld amb (Except.ok ())).selection =
      some { pipeline := CompPipeline.quadFloat
             textures := [BoundTexture.depthView], bindsLightingUniform := false } ∧
    (render st vp pos 4 ld amb (Except.ok ())).selection =
      some { pipeline := CompPipeline.lighting
             textures := [BoundTexture.albedo, BoundTexture.normal]
             bindsLightingUniform := true } ∧
    (∀ n : Nat, 4 < n →
      (render st vp pos n ld amb (Except.ok ())).selection =
        some albedoDebugSelection ∧
      (render st vp pos n ld amb (Except.ok ())).outcome = RustOutcome.ok) := by
  refine ⟨?_, ?_, ?_, ?_, ?_, ?_⟩
  · rw [(render_selection st vp pos ld 0 amb hvp hpos).1]; rfl
  · rw [(render_selection st vp pos ld 1 amb hvp hpos).1]; rfl
  · rw [(render_selection st vp pos ld 2 amb hvp hpos).1]; rfl
  · rw [(render_selection st vp pos ld 3 amb hvp hpos).1]; rfl
  · rw [(render_selection st vp pos ld 4 amb hvp hpos).1]; rfl
  · intro n hn
    refine ⟨?_, (render_selection st vp pos ld n amb hvp hpos).2⟩
    rw [(render_selection st vp pos ld n amb hvp hpos).1,
      selectPresent_fallback n hn]

/-- Witness for C2 at a concrete state, concrete inputs and the
unrecognized mode 7. -/
theorem present_mode_coverage_witness :
    (render st0 vp16 pos3 7 light2 (F32.mk 0) (Except.ok ())).selection =
      some albedoDebugSelection ∧
    (render st0 vp16 pos3 7 light2 (F32.mk 0) (Except.ok ())).outcome =
      RustOutcome.ok :=
  (present_mode_coverage st0 vp16 pos3 light2 (F32.mk 0)
    (by decide) (by decide)).2.2.2.2.2 7 (by decide)

/-- Counterexample to claim C5 as stated: with a well-formed matrix and
camera position but a 2-element light direction, render does not fail
loudly — it returns Ok and silently writes the default light direction
[0.5, 0.5, 0.5] into the lighting uniforms. -/
theorem malformed_light_dir_not_loud :
    (render st0 vp16 pos3 0 light2 (F32.mk 0)
      (Except.ok ())).outcome = RustOutcome.ok ∧
    (render st0 vp16 pos3 0 light2 (F32.mk 0)
      (Except.ok ())).state.lighting_uniform.light_dir = defaultLightDir := by
  constructor <;> rfl

/-- Claim C5 amended: a view-projection slice that is not exactly 16
floats panics in expect, a camera-position slice that is not exactly 3
floats panics in unwrap (both before any buffer write), but a light
direction of the wrong length is silently replaced by the default
[0.5, 0.5, 0.5] through unwrap_or and render proceeds normally. -/
theorem malformed_input_lengths (st : RendererState) (vp pos ld : List F32)
    (pt : Nat) (amb : F32) (acq : Except String Unit) :
    (vp.length ≠ 16 →
      (render st vp pos pt ld amb acq).outcome =
        RustOutcome.panicked "mvp_matrix has incorrect length") ∧
    (vp.length = 16 → pos.length ≠ 3 →
      (render st vp pos pt ld amb acq).outcome =
        RustOutcome.panicked "called Result::unwrap on an Err value") ∧
    (vp.length = 16 → pos.length = 3 → ld.length ≠ 3 →
      (render st vp pos pt ld amb acq).state.lighting_uniform.light_dir =
        defaultLightDir ∧
      (render st vp pos pt ld amb acq).outcome =
        (match acq with
         | Except.ok _ => RustOutcome.ok
         | Except.error e => RustOutcome.err e)) := by
  refine ⟨?_, ?_, ?_⟩
  · intro hvp
    simp [render, hvp]
  · intro hvp hpos
    cases acq <;> simp [render, hvp, hpos]
  · intro hvp hpos hld
    cases acq <;> simp [render, hvp, hpos, hld]

/-- Witness for C5 amended at concrete malformed inputs: an empty matrix
slice, a 2-element position slice, and a 2-element light direction. -/
theorem malformed_input_lengths_witness :
    (render st0 [] pos3 0 light2 (F32.mk 0) (Except.ok ())).outcome =
      RustOutcome.panicked "mvp_matrix has incorrect length" ∧
    (render st0 vp16 light2 0 light2 (F32.mk 0) (Except.ok ())).outcome =
      RustOutcome.panicked "called Result::unwrap on an Err value" ∧
    (render st0 vp16 pos3 0 light2 (F32.mk 0)
      (Except.ok ())).state.lighting_uniform.light_dir = defaultLightDir :=
  ⟨(malformed_input_lengths st0 [] pos3 light2 0 (F32.mk 0)
      (Except.ok ())).1 (by decide),
   (malformed_input_lengths st0 vp16 light2 light2 0 (F32.mk 0)
      (Except.ok ())).2.1 (by decide) (by decide),
   ((malformed_input_lengths st0 vp16 pos3 light2 0 (F32.mk 0)
      (Except.ok ())).2.2 (by decide) (by decide) (by decide)).1⟩

/-- Claim C8: render returns an Err exactly when surface-image acquisition
fails; on that path nothing is submitted and no frame is presented, and on
every other execution with well-formed inputs render runs to completion,
submits the recorded commands as a single batch and presents the frame. -/
theorem render_error_iff (st : RendererState) (vp pos ld : List F32)
    (pt : Nat) (amb : F32) (acq : Except String Unit)
    (hvp : vp.length = 16) (hpos : pos.length = 3) :
    ((render st vp pos pt ld amb acq).outcome.isErr = true ↔
      ∃ e, acq = Except.error e) ∧
    (∀ e, acq = Except.error e →
      (render st vp pos pt ld amb acq).outcome = RustOutcome.err e ∧
      (render st vp pos pt ld amb acq).submits = 0 ∧
      (render st vp pos pt ld amb acq).presented = false) ∧
    (∀ u : Unit, acq = Except.ok u →
      (render st vp pos pt ld amb acq).outcome = RustOutcome.ok ∧
      (render st vp pos pt ld amb acq).submits = 1 ∧
      (render st vp pos pt ld amb acq).presented = true) := by
  cases acq <;> simp [render, hvp, hpos, RustOutcome.isErr]

/-- Witness for C8 at concrete inputs, on both a failed and a successful
acquisition. -/
theorem render_error_iff_witness :
    ((render st0 vp16 pos3 0 light2 (F32.mk 0)
        (Except.error "surface lost")).outcome =
          RustOutcome.err "surface lost" ∧
      (render st0 vp16 pos3 0 light2 (F32.mk 0)
        (Except.error "surface lost")).submits = 0 ∧
      (render st0 vp16 pos3 0 light2 (F32.mk 0)
        (Except.error "surface lost")).presented = false) ∧
    ((render st0 vp16 pos3 0 light2 (F32.mk 0)
        (Except.ok ())).outcome = RustOutcome.ok ∧
      (render st0 vp16 pos3 0 light2 (F32.mk 0)
        (Except.ok ())).submits = 1 ∧
      (render st0 vp16 pos3 0 light2 (F32.mk 0)
        (Except.ok ())).presented = true) :=
  ⟨(render_error_iff st0 vp16 pos3 light2 0 (F32.mk 0)
      (Except.error "surface lost") (by decide) (by decide)).2.1
      "surface lost" rfl,
   (render_error_iff st0 vp16 pos3 light2 0 (F32.mk 0)
      (Except.ok ()) (by decide) (by decide)).2.2 () rfl⟩

/-- Helper: the palette loop succeeds when the writes fit in the array,
leaves the length unchanged, writes pack_rgba of entry j - i at every
index j in the written window, and leaves all other indices alone. -/
theorem packPaletteLoop_spec (palette : List Color) :
    ∀ (arr : List Nat) (i : Nat), i + palette.length ≤ arr.length →
    ∃ res, packPaletteLoop arr palette i = some res ∧
      res.length = arr.length ∧
      ∀ j : Nat, res[j]? =
        if i ≤ j ∧ j < i + palette.length
        then (palette[j - i]?).map pack_rgba
        else arr[j]? := by
  induction palette with
  | nil =>
    intro arr i _
    refine ⟨arr, rfl, rfl, fun j => ?_⟩
    rw [if_neg]
    simp only [List.length_nil]
    omega
  | cons c rest ih =>
    intro arr i h
    have hi : i < arr.length := by
      simp only [List.length_cons] at h
      omega
    have hw : writeAt arr i (pack_rgba c) =
        some (arr.set i (pack_rgba c)) := by
      simp [writeAt, hi]
    obtain ⟨res, hres, hlen, hget⟩ :=
      ih (arr.set i (pack_rgba c)) (i + 1)
        (by simp only [List.length_set]; simp only [List.length_cons] at h; omega)
    refine ⟨res, ?_, by simpa using hlen, fun j => ?_⟩
    · simp only [packPaletteLoop, hw]
      exact hres
    · have hj := hget j
      by_cases h1 : i ≤ j ∧ j < i + (c :: rest).length
      · rw [if_pos h1]
        by_cases h2 : j = i
        · subst h2
          rw [if_neg (by omega)] at hj
          rw [hj, List.getElem?_set_self hi]
          simp
        · have h3 : i + 1 ≤ j ∧ j < i + 1 + rest.length := by
            simp only [List.length_cons] at h1
            omega
          rw [if_pos h3] at hj
          rw [hj]
          have h4 : j - i = (j - (i + 1)) + 1 := by omega
          rw [h4, List.getElem?_cons_succ]
      · rw [if_neg h1]
        rw [if_neg (by simp only [List.length_cons] at h1 ⊢; omega)] at hj
        rw [hj]
        exact List.getElem?_set_ne (by simp only [List.length_cons] at h1; omega)

/-- Helper: with a nonempty palette whose writes overrun the array, the
palette loop hits the out-of-bounds write and returns none. -/
theorem packPaletteLoop_overrun (palette : List Color) :
    ∀ (arr : List Nat) (i : Nat), palette ≠ [] →
      arr.length < i + palette.length →
      packPaletteLoop arr palette i = none := by
  induction palette with
  | nil =>
    intro arr i hne _
    exact absurd rfl hne
  | cons c rest ih =>
    intro arr i _ hlt
    by_cases hi : i < arr.length
    · have hw : writeAt arr i (pack_rgba c) =
          some (arr.set i (pack_rgba c)) := by
        simp [writeAt, hi]
      simp only [packPaletteLoop, hw]
      cases rest with
      | nil =>
        exfalso
        simp only [List.length_cons, List.length_nil] at hlt
        omega
      | cons c2 r2 =>
        apply ih
        · simp
        · simp only [List.length_set, List.length_cons] at hlt ⊢
          omega
    · have hw : writeAt arr i (pack_rgba c) = none := by
        simp [writeAt, hi]
      simp [packPaletteLoop, hw]

/-- Helper: when buildDrawCall succeeds, the record it returns is the one
determined by the object alone. -/
theorem buildDrawCall_ok (dev : Device) (obj : VoxelObject)
    (dc : DrawCallData) (h : buildDrawCall dev obj = Except.ok dc) :
    dc = mkDrawCall obj := by
  unfold buildDrawCall at h
  cases h1 : dev.texFail (textureDescFor obj) with
  | some e => rw [h1] at h; cases h
  | none =>
  rw [h1] at h
  cases h2 : dev.samplerFail with
  | some e => rw [h2] at h; cases h
  | none =>
  rw [h2] at h
  cases h3 : dev.bufFail { model_matrix := obj.model_matrix
                           inverse_model_matrix := obj.inv_model_matrix } with
  | some e => rw [h3] at h; cases h
  | none =>
  rw [h3] at h
  cases h4 : dev.bindFail with
  | some e => rw [h4] at h; cases h
  | none =>
  rw [h4] at h
  cases h
  rfl

/-- Helper: a successful object loop returns exactly the map of mkDrawCall
over the objects, in input order. -/
theorem uploadObjects_ok (dev : Device) :
    ∀ (objs : List VoxelObject) (dcs : List DrawCallData),
      uploadObjects dev objs = Except.ok dcs →
      dcs = objs.map mkDrawCall := by
  intro objs
  induction objs with
  | nil =>
    intro dcs h
    cases h
    rfl
  | cons obj rest ih =>
    intro dcs h
    simp only [uploadObjects] at h
    cases hb : buildDrawCall dev obj with
    | error e => rw [hb] at h; cases h
    | ok dc =>
      rw [hb] at h
      cases hr : uploadObjects dev rest with
      | error e => rw [hr] at h; cases h
      | ok dcs2 =>
        rw [hr] at h
        cases h
        rw [List.map_cons, buildDrawCall_ok dev obj dc hb, ih dcs2 hr]

/-- Claim C1: upload atomicity — when any per-object resource creation
fails (the object loop returns an error), upload_scene does not complete
and the renderer's draw-call collection after the call equals the
collection before: the previous set is never partially replaced. -/
theorem upload_atomicity (dev : Device) (st : RendererState) (scene : Scene)
    (e : String) (h : uploadObjects dev scene.objects = Except.error e) :
    (upload_scene dev st scene).1 ≠ RustOutcome.ok ∧
    (upload_scene dev st scene).2.draw_call_array = st.draw_call_array := by
  unfold upload_scene
  cases hp : packPalette scene.palette with
  | none => exact ⟨by simp, rfl⟩
  | some packed =>
    rw [h]
    exact ⟨by simp, rfl⟩

/-- Witness for C1: a device that fails every texture creation, applied to
a one-object scene over the initial renderer state. -/
theorem upload_atomicity_witness :
    (upload_scene failTexDevice st0 sceneOne).1 ≠ RustOutcome.ok ∧
    (upload_scene failTexDevice st0 sceneOne).2.draw_call_array =
      st0.draw_call_array :=
  upload_atomicity failTexDevice st0 sceneOne "texture creation failed"
    (by rfl)

/-- Claim C3: palette packing — for a palette of length at most 256, after
upload_scene the 256-word static-uniform array holds the packed RGBA value
of entry i at every index below the palette length and zero at every index
from the palette length up to 256. -/
theorem palette_packing (dev : Device) (st : RendererState) (scene : Scene)
    (h : scene.palette.length ≤ 256) :
    (upload_scene dev st scene).2.static_uniform.length = 256 ∧
    (∀ i : Nat, i < scene.palette.length →
      (upload_scene dev st scene).2.static_uniform[i]? =
        (scene.palette[i]?).map pack_rgba) ∧
    (∀ i : Nat, scene.palette.length ≤ i → i < 256 →
      (upload_scene dev st scene).2.static_uniform[i]? = some 0) := by
  obtain ⟨res, hres, hlen, hget⟩ :=
    packPaletteLoop_spec scene.palette (List.replicate 256 0) 0 (by simpa)
  have hsu : (upload_scene dev st scene).2.static_uniform = res := by
    unfold upload_scene packPalette
    rw [hres]
    cases uploadObjects dev scene.objects <;> rfl
  rw [hsu]
  refine ⟨by simpa using hlen, fun i hi => ?_, fun i hi1 hi2 => ?_⟩
  · rw [hget i, if_pos (by omega)]
    simp
  · rw [hget i, if_neg (by omega)]
    exact List.getElem?_replicate_of_lt hi2

/-- Witness for C3: the single-entry red palette packs its color at index
0 and zero at index 1. -/
theorem palette_packing_witness :
    (upload_scene okDevice st0 sceneOne).2.static_uniform.length = 256 ∧
    (upload_scene okDevice st0 sceneOne).2.static_uniform[0]? =
      some (pack_rgba redColor) ∧
    (upload_scene okDevice st0 sceneOne).2.static_uniform[1]? = some 0 :=
  ⟨(palette_packing okDevice st0 sceneOne (by decide)).1,
   by
    have h := (palette_packing okDevice st0 sceneOne (by decide)).2.1 0
      (by decide)
    simpa [sceneOne] using h,
   (palette_packing okDevice st0 sceneOne (by decide)).2.2 1 (by decide)
    (by decide)⟩

/-- Counterexample to claim C4 as stated: a 257-entry palette does not
have its excess entry ignored — the packing loop indexes the fixed
256-slot array out of bounds and upload_scene panics instead of
completing. -/
theorem palette_overflow_counterexample :
    (upload_scene okDevice st0 sceneBig).1 =
      RustOutcome.panicked "index out of bounds" := by
  have hnone : packPalette sceneBig.palette = none := by
    apply packPaletteLoop_overrun
    · decide
    · simp [sceneBig, bigPalette]
  simp [upload_scene, hnone]

/-- Claim C4 amended: excess palette entries are not ignored — for every
scene whose palette has more than 256 entries, the palette loop writes out
of bounds into the fixed 256-slot packed array, so upload_scene panics
before mutating any renderer state instead of completing. -/
theorem palette_overflow_panics (dev : Device) (st : RendererState)
    (scene : Scene) (h : 256 < scene.palette.length) :
    upload_scene dev st scene =
      (RustOutcome.panicked "index out of bounds", st) := by
  have hne : scene.palette ≠ [] := by
    intro hnil
    rw [hnil] at h
    simp at h
  have hnone : packPalette scene.palette = none :=
    packPaletteLoop_overrun scene.palette (List.replicate 256 0) 0 hne
      (by simpa)
  simp [upload_scene, hnone]

/-- Witness for C4 amended at the concrete 257-entry palette. -/
theorem palette_overflow_panics_witness :
    upload_scene okDevice st0 sceneBig =
      (RustOutcome.panicked "index out of bounds", st0) :=
  palette_overflow_panics okDevice st0 sceneBig (by decide)

/-- Claim C6: draw-call count invariant — a successful upload_scene of a
scene with N objects leaves exactly N draw-call records, and the record at
every position i is the one built from the i-th input object. -/
theorem draw_call_count (dev : Device) (st : RendererState) (scene : Scene)
    (st' : RendererState)
    (h : upload_scene dev st scene = (RustOutcome.ok, st')) :
    st'.draw_call_array.length = scene.objects.length ∧
    ∀ i : Nat, st'.draw_call_array[i]? =
      (scene.objects[i]?).map mkDrawCall := by
  unfold upload_scene at h
  cases hp : packPalette scene.palette with
  | none =>
    rw [hp] at h
    simp at h
  | some packed =>
    rw [hp] at h
    cases hu : uploadObjects dev scene.objects with
    | error e =>
      rw [hu] at h
      simp at h
    | ok dcs =>
      rw [hu] at h
      have hdc : dcs = scene.objects.map mkDrawCall :=
        uploadObjects_ok dev scene.objects dcs hu
      have hst : st'.draw_call_array = dcs := by
        have := congrArg Prod.snd h
        simp at this
        rw [← this]
      rw [hst, hdc]
      exact ⟨by simp, fun i => by simp⟩

/-- Witness for C6: uploading the two-object scene on the all-success
device yields two records, built from the objects in input order. -/
theorem draw_call_count_witness :
    (upload_scene okDevice st0 sceneTwo).2.draw_call_array.length =
      sceneTwo.objects.length ∧
    (upload_scene okDevice st0 sceneTwo).2.draw_call_array[0]? =
      some (mkDrawCall sampleObject) ∧
    (upload_scene okDevice st0 sceneTwo).2.draw_call_array[1]? =
      some (mkDrawCall sampleObject2) := by
  have h := draw_call_count okDevice st0 sceneTwo
    (upload_scene okDevice st0 sceneTwo).2 (by decide)
  refine ⟨h.1, ?_, ?_⟩
  · have := h.2 0
    simpa [sceneTwo] using this
  · have := h.2 1
    simpa [sceneTwo] using this

end Voxellaneous
